import Mathlib

/-!
Verification of `filament/backend/src/vulkan/VulkanBlitter.cpp`.

The file shallowly embeds the blitter: Vulkan enums and bitmask constants
become `Nat` constants or small inductive types, the `VulkanLayoutTransition`
struct becomes a Lean structure, and command recording into a `VkCommandBuffer`
becomes a pure function returning the list of recorded commands.  The external
collaborators that live outside this translation unit (`getTextureLayout`,
the current surface's `headlessQueue` flag, `getSwapChainAttachment`, the
render-target accessors `getColor`/`getDepth`/`getExtent`, and the Vulkan
driver entry points) are modelled abstractly as fields of context/driver
structures, so every theorem below holds for an arbitrary behaviour of those
collaborators.  `assert_invariant` (a fatal invariant check) is modelled as an
`Except.error` carrying the commands already recorded when it fires.
-/

namespace VulkanBlitterModel

/-- `VK_ACCESS_SHADER_READ_BIT` (0x20). -/
def VK_ACCESS_SHADER_READ_BIT : Nat := 0x20

/-- `VK_ACCESS_TRANSFER_READ_BIT` (0x800). -/
def VK_ACCESS_TRANSFER_READ_BIT : Nat := 0x800

/-- `VK_ACCESS_TRANSFER_WRITE_BIT` (0x1000). -/
def VK_ACCESS_TRANSFER_WRITE_BIT : Nat := 0x1000

/-- `VK_PIPELINE_STAGE_TOP_OF_PIPE_BIT` (0x1). -/
def VK_PIPELINE_STAGE_TOP_OF_PIPE_BIT : Nat := 0x1

/-- `VK_PIPELINE_STAGE_FRAGMENT_SHADER_BIT` (0x80). -/
def VK_PIPELINE_STAGE_FRAGMENT_SHADER_BIT : Nat := 0x80

/-- `VK_PIPELINE_STAGE_TRANSFER_BIT` (0x1000). -/
def VK_PIPELINE_STAGE_TRANSFER_BIT : Nat := 0x1000

/-- `VK_PIPELINE_STAGE_BOTTOM_OF_PIPE_BIT` (0x2000). -/
def VK_PIPELINE_STAGE_BOTTOM_OF_PIPE_BIT : Nat := 0x2000

/-- `VK_IMAGE_ASPECT_COLOR_BIT` (0x1). -/
def VK_IMAGE_ASPECT_COLOR_BIT : Nat := 0x1

/-- `VK_IMAGE_ASPECT_DEPTH_BIT` (0x2). -/
def VK_IMAGE_ASPECT_DEPTH_BIT : Nat := 0x2

/-- The `VkImageLayout` values reachable in this subsystem. -/
inductive VkImageLayout where
  | undefined
  | general
  | colorAttachmentOptimal
  | depthStencilAttachmentOptimal
  | depthStencilReadOnlyOptimal
  | shaderReadOnlyOptimal
  | transferSrcOptimal
  | transferDstOptimal
  | preinitialized
  | presentSrcKHR
  deriving DecidableEq, Repr

/-- `VkFilter`. -/
inductive VkFilter where
  | nearest
  | linear
  deriving DecidableEq, Repr

/-- `VkOffset3D`. -/
structure VkOffset3D where
  x : Int
  y : Int
  z : Int
  deriving DecidableEq, Repr

/-- `VkExtent2D`. -/
structure VkExtent2D where
  width : Nat
  height : Nat
  deriving DecidableEq, Repr

/-- `VkExtent3D`. -/
structure VkExtent3D where
  width : Nat
  height : Nat
  depth : Nat
  deriving DecidableEq, Repr

/-- `VkImageSubresourceLayers` (aspectMask, mipLevel, baseArrayLayer, layerCount). -/
structure VkImageSubresourceLayers where
  aspectMask : Nat
  mipLevel : Nat
  baseArrayLayer : Nat
  layerCount : Nat
  deriving DecidableEq, Repr

/-- `VkImageSubresourceRange`. -/
structure VkImageSubresourceRange where
  aspectMask : Nat
  baseMipLevel : Nat
  levelCount : Nat
  baseArrayLayer : Nat
  layerCount : Nat
  deriving DecidableEq, Repr

/-- `VkImageBlit`: one blit region (`srcOffsets`/`dstOffsets` are the two-corner pairs). -/
structure VkImageBlit where
  srcSubresource : VkImageSubresourceLayers
  srcOffsets : VkOffset3D × VkOffset3D
  dstSubresource : VkImageSubresourceLayers
  dstOffsets : VkOffset3D × VkOffset3D
  deriving DecidableEq, Repr

/-- `VkImageResolve`: one resolve region. -/
structure VkImageResolve where
  srcSubresource : VkImageSubresourceLayers
  srcOffset : VkOffset3D
  dstSubresource : VkImageSubresourceLayers
  dstOffset : VkOffset3D
  extent : VkExtent3D
  deriving DecidableEq, Repr

/-- `VulkanLayoutTransition` (field order as in the C struct used by the
positional initializers in `blitFast`).  Image handles are `Nat`. -/
structure VulkanLayoutTransition where
  image : Nat
  oldLayout : VkImageLayout
  newLayout : VkImageLayout
  subresources : VkImageSubresourceRange
  srcStage : Nat
  srcAccessMask : Nat
  dstStage : Nat
  dstAccessMask : Nat
  deriving DecidableEq, Repr

/-- `transitionHelper` from VulkanBlitter.cpp: populates the four
barrier synchronization fields of a transition from its `newLayout`. -/
def transitionHelper (transition : VulkanLayoutTransition) : VulkanLayoutTransition :=
  match transition.newLayout with
  | .shaderReadOnlyOptimal
  | .general =>
      { transition with
        srcAccessMask := VK_ACCESS_TRANSFER_WRITE_BIT
        dstAccessMask := VK_ACCESS_SHADER_READ_BIT
        srcStage := VK_PIPELINE_STAGE_TRANSFER_BIT
        dstStage := VK_PIPELINE_STAGE_FRAGMENT_SHADER_BIT }
  | _ =>
      { transition with
        srcAccessMask := VK_ACCESS_TRANSFER_READ_BIT
        dstAccessMask := 0
        srcStage := VK_PIPELINE_STAGE_TRANSFER_BIT
        dstStage := VK_PIPELINE_STAGE_TOP_OF_PIPE_BIT }

/-- `VulkanTexture`: the two fields `blitFast` reads (`samples`, `usage`).
Usage flags are an abstract `Nat` bitmask. -/
structure VulkanTexture where
  samples : Nat
  usage : Nat
  deriving DecidableEq, Repr

/-- `VulkanAttachment`: `texture` is the optional backing-texture reference. -/
structure VulkanAttachment where
  texture : Option VulkanTexture
  image : Nat
  format : Nat
  level : Nat
  layer : Nat
  deriving DecidableEq, Repr

/-- `VulkanRenderTarget`, reduced to the accessors the blitter calls. -/
structure VulkanRenderTarget where
  getColor : Nat → VulkanAttachment
  getDepth : VulkanAttachment
  getExtent : VkExtent2D

/-- The ambient context state `blitFast` reads: `getTextureLayout` (the pure
usage-flags → layout mapping defined outside this translation unit, kept
abstract), `mContext.currentSurface->headlessQueue`, and
`getSwapChainAttachment(mContext).layout`. -/
structure VulkanContextModel where
  getTextureLayout : Nat → VkImageLayout
  headlessQueue : Bool
  swapChainAttachmentLayout : VkImageLayout

/-- A command recorded into the command buffer: a layout-transition barrier
(`transitionImageLayout`), `vkCmdResolveImage`, or `vkCmdBlitImage`. -/
inductive BlitCmd where
  | pipelineBarrier (t : VulkanLayoutTransition)
  | resolveImage (srcImage : Nat) (srcLayout : VkImageLayout)
      (dstImage : Nat) (dstLayout : VkImageLayout) (region : VkImageResolve)
  | blitImage (srcImage : Nat) (srcLayout : VkImageLayout)
      (dstImage : Nat) (dstLayout : VkImageLayout) (region : VkImageBlit)
      (filter : VkFilter)
  deriving DecidableEq, Repr

/-- The guard of line 160:
`src.texture && src.texture->samples > 1 && dst.texture && dst.texture->samples == 1`. -/
def resolveCondition (src dst : VulkanAttachment) : Bool :=
  match src.texture, dst.texture with
  | some st, some dt => decide (st.samples > 1) && decide (dt.samples = 1)
  | _, _ => false

/-- The single `VkImageBlit` region of `blitFast` (lines 109-114). -/
def blitRegion (aspect : Nat) (src dst : VulkanAttachment)
    (srcRect dstRect : VkOffset3D × VkOffset3D) : VkImageBlit :=
  { srcSubresource := ⟨aspect, src.level, src.layer, 1⟩
    srcOffsets := srcRect
    dstSubresource := ⟨aspect, dst.level, dst.layer, 1⟩
    dstOffsets := dstRect }

/-- The single `VkImageResolve` region of `blitFast` (lines 118-124); its
extent comes from the source target's overall extent, not from the rects. -/
def resolveRegion (aspect : Nat) (srcExtent : VkExtent2D) (src dst : VulkanAttachment)
    (srcRect dstRect : VkOffset3D × VkOffset3D) : VkImageResolve :=
  { srcSubresource := ⟨aspect, src.level, src.layer, 1⟩
    srcOffset := srcRect.1
    dstSubresource := ⟨aspect, dst.level, dst.layer, 1⟩
    dstOffset := dstRect.1
    extent := ⟨srcExtent.width, srcExtent.height, 1⟩ }

/-- The single-level/single-layer subresource range of an attachment
(lines 126-140). -/
def attachmentRange (aspect : Nat) (a : VulkanAttachment) : VkImageSubresourceRange :=
  ⟨aspect, a.level, 1, a.layer, 1⟩

/-- Entry barrier 1 (lines 142-149): source to transfer-source-optimal. -/
def srcEntryBarrier (aspect : Nat) (src : VulkanAttachment) : BlitCmd :=
  .pipelineBarrier ⟨src.image, .undefined, .transferSrcOptimal,
    attachmentRange aspect src,
    VK_PIPELINE_STAGE_BOTTOM_OF_PIPE_BIT, 0,
    VK_PIPELINE_STAGE_TRANSFER_BIT, VK_ACCESS_TRANSFER_READ_BIT⟩

/-- Entry barrier 2 (lines 151-158): destination to transfer-destination-optimal. -/
def dstEntryBarrier (aspect : Nat) (dst : VulkanAttachment) : BlitCmd :=
  .pipelineBarrier ⟨dst.image, .undefined, .transferDstOptimal,
    attachmentRange aspect dst,
    VK_PIPELINE_STAGE_BOTTOM_OF_PIPE_BIT, 0,
    VK_PIPELINE_STAGE_TRANSFER_BIT, VK_ACCESS_TRANSFER_WRITE_BIT⟩

/-- Exit barrier(s) for the source (lines 169-183): texture's usage layout if
backed by a texture, else color-attachment-optimal unless the surface is
headless, in which case nothing is emitted.  The stage/access fields are
zero-initialized by the designated initializer and then filled in by
`transitionHelper`. -/
def srcExitBarriers (ctx : VulkanContextModel) (aspect : Nat)
    (src : VulkanAttachment) : List BlitCmd :=
  match src.texture with
  | some t =>
      [ .pipelineBarrier (transitionHelper
          ⟨src.image, .undefined, ctx.getTextureLayout t.usage,
            attachmentRange aspect src, 0, 0, 0, 0⟩) ]
  | none =>
      if !ctx.headlessQueue then
        [ .pipelineBarrier (transitionHelper
            ⟨src.image, .undefined, .colorAttachmentOptimal,
              attachmentRange aspect src, 0, 0, 0, 0⟩) ]
      else []

/-- The destination's desired post-copy layout (lines 187-188): its texture's
usage layout if present, else the current swapchain attachment's layout. -/
def dstDesiredLayout (ctx : VulkanContextModel) (dst : VulkanAttachment) :
    VkImageLayout :=
  match dst.texture with
  | some t => ctx.getTextureLayout t.usage
  | none => ctx.swapChainAttachmentLayout

/-- Exit barrier for the destination (lines 190-195): always emitted. -/
def dstExitBarrier (ctx : VulkanContextModel) (aspect : Nat)
    (dst : VulkanAttachment) : BlitCmd :=
  .pipelineBarrier (transitionHelper
    ⟨dst.image, .undefined, dstDesiredLayout ctx dst,
      attachmentRange aspect dst, 0, 0, 0, 0⟩)

/-- `VulkanBlitter::blitFast`.  Returns the list of commands recorded into
`cmdbuffer`; the `assert_invariant` on the depth-resolve path is modelled as
`Except.error` carrying the commands recorded before the fatal abort (the two
entry barriers, recorded by lines 142-158 before the assert at line 161). -/
def blitFast (ctx : VulkanContextModel) (aspect : Nat) (filter : VkFilter)
    (srcTarget : VulkanRenderTarget) (src dst : VulkanAttachment)
    (srcRect dstRect : VkOffset3D × VkOffset3D) :
    Except (List BlitCmd) (List BlitCmd) :=
  let entry : List BlitCmd := [srcEntryBarrier aspect src, dstEntryBarrier aspect dst]
  let exits : List BlitCmd := srcExitBarriers ctx aspect src ++ [dstExitBarrier ctx aspect dst]
  if resolveCondition src dst then
    if aspect = VK_IMAGE_ASPECT_DEPTH_BIT then
      .error entry
    else
      .ok (entry
        ++ [.resolveImage src.image .transferSrcOptimal dst.image .transferDstOptimal
              (resolveRegion aspect srcTarget.getExtent src dst srcRect dstRect)]
        ++ exits)
  else
    .ok (entry
      ++ [.blitImage src.image .transferSrcOptimal dst.image .transferDstOptimal
            (blitRegion aspect src dst srcRect dstRect) filter]
      ++ exits)

/-- `BlitArgs` (the fields the blitter reads). -/
structure BlitArgs where
  filter : VkFilter
  srcRectPair : VkOffset3D × VkOffset3D
  dstRectPair : VkOffset3D × VkOffset3D
  srcTarget : VulkanRenderTarget
  dstTarget : VulkanRenderTarget
  targetIndex : Nat

/-- `VulkanBlitter::blitColor` (the `FILAMENT_VULKAN_CHECK_BLIT_FORMAT` block
is compiled out, the macro being defined to 0 in the source). -/
def blitColor (ctx : VulkanContextModel) (args : BlitArgs) :
    Except (List BlitCmd) (List BlitCmd) :=
  let src := args.srcTarget.getColor args.targetIndex
  let dst := args.dstTarget.getColor 0
  blitFast ctx VK_IMAGE_ASPECT_COLOR_BIT args.filter args.srcTarget src dst
    args.srcRectPair args.dstRectPair

/-- `VulkanBlitter::blitDepth` (format-check block likewise compiled out). -/
def blitDepth (ctx : VulkanContextModel) (args : BlitArgs) :
    Except (List BlitCmd) (List BlitCmd) :=
  let src := args.srcTarget.getDepth
  let dst := args.dstTarget.getDepth
  blitFast ctx VK_IMAGE_ASPECT_DEPTH_BIT args.filter args.srcTarget src dst
    args.srcRectPair args.dstRectPair

/-- Commands recorded into the buffer, whether the call completed or aborted
fatally part-way through. -/
def recorded : Except (List BlitCmd) (List BlitCmd) → List BlitCmd
  | .ok l => l
  | .error l => l

/-- Is the command a layout-transition barrier? -/
def isBarrierCmd : BlitCmd → Bool
  | .pipelineBarrier _ => true
  | _ => false

/-- Is the command `vkCmdResolveImage`? -/
def isResolveCmd : BlitCmd → Bool
  | .resolveImage .. => true
  | _ => false

/-- Is the command `vkCmdBlitImage`? -/
def isBlitCmd : BlitCmd → Bool
  | .blitImage .. => true
  | _ => false

/-- Is the command `vkCmdBlitImage` with the given filter? -/
def isBlitCmdWithFilter (f : VkFilter) : BlitCmd → Bool
  | .blitImage _ _ _ _ _ fl => fl = f
  | _ => false

/-- Is the command a copy command (resolve or blit)? -/
def isCopyCmd (c : BlitCmd) : Bool :=
  isResolveCmd c || isBlitCmd c

/-- The blitter's two shader-module handle fields.  `VkShaderModule` handles
are `Nat`, with 0 for `VK_NULL_HANDLE` (the zero-initialized state). -/
structure VulkanBlitterState where
  mVertex : Nat
  mFragment : Nat
  deriving DecidableEq, Repr

/-- Which of the two blit shader stages a creation event concerns. -/
inductive ShaderStage where
  | vertex
  | fragment
  deriving DecidableEq, Repr

/-- A driver-visible shader-module lifecycle event:
`vkCreateShaderModule` / `vkDestroyShaderModule`. -/
inductive ShaderModuleEvent where
  | create (stage : ShaderStage) (handle : Nat)
  | destroy (handle : Nat)
  deriving DecidableEq, Repr

/-- Is the event a `vkCreateShaderModule` call? -/
def isCreateEvent : ShaderModuleEvent → Bool
  | .create .. => true
  | _ => false

/-- The driver facts `lazyInit`/`shutdown` depend on: whether
`mContext.device` is non-null, and the handles a successful
`vkCreateShaderModule` returns for the blit vertex and fragment SPIR-V blobs.
`ASSERT_POSTCONDITION(result == VK_SUCCESS, ...)` makes creation failure
fatal, so the model records the success path; a Vulkan success writes a
non-null handle, which theorems carry as the hypothesis `vsHandle ≠ 0`. -/
structure VulkanDriverModel where
  device : Bool
  vsHandle : Nat
  fsHandle : Nat
  deriving DecidableEq, Repr

/-- `VulkanBlitter::lazyInit` (lines 207-226): a no-op if `mVertex` is already
non-null; otherwise `assert_invariant(mContext.device)` (modelled as a fatal
`Except.error` with no event performed), then creation of the vertex and
fragment shader modules.  Returns the new state and the creation events. -/
def lazyInit (drv : VulkanDriverModel) (s : VulkanBlitterState) :
    Except (List ShaderModuleEvent) (VulkanBlitterState × List ShaderModuleEvent) :=
  if s.mVertex ≠ 0 then
    .ok (s, [])
  else if drv.device then
    .ok ({ mVertex := drv.vsHandle, mFragment := drv.fsHandle },
      [.create .vertex drv.vsHandle, .create .fragment drv.fsHandle])
  else
    .error []

/-- `VulkanBlitter::shutdown` (lines 198-203): if a device is present, destroy
both stored handles; the handle fields themselves are never assigned.  Returns
the (unchanged) state and the destruction events. -/
def shutdown (drv : VulkanDriverModel) (s : VulkanBlitterState) :
    VulkanBlitterState × List ShaderModuleEvent :=
  if drv.device then
    (s, [.destroy s.mVertex, .destroy s.mFragment])
  else
    (s, [])

/-! Concrete fixtures used by witness and counterexample theorems. -/

/-- A 4-sample texture fixture. -/
def texMS : VulkanTexture := ⟨4, 0⟩

/-- A single-sample texture fixture. -/
def tex1 : VulkanTexture := ⟨1, 0⟩

/-- A 4-sample attachment fixture. -/
def attMS : VulkanAttachment := ⟨some texMS, 10, 0, 0, 0⟩

/-- A single-sample attachment fixture. -/
def att1 : VulkanAttachment := ⟨some tex1, 20, 0, 0, 0⟩

/-- An attachment fixture with no backing texture (default render target). -/
def attNoTex : VulkanAttachment := ⟨none, 30, 0, 0, 0⟩

/-- A non-headless context fixture. -/
def ctx0 : VulkanContextModel := ⟨fun _ => .shaderReadOnlyOptimal, false, .presentSrcKHR⟩

/-- A headless context fixture. -/
def ctxHeadless : VulkanContextModel := ⟨fun _ => .shaderReadOnlyOptimal, true, .presentSrcKHR⟩

/-- A render-target fixture whose color and depth attachments are 4-sample. -/
def rtMS : VulkanRenderTarget := ⟨fun _ => attMS, attMS, ⟨16, 16⟩⟩

/-- A render-target fixture whose color and depth attachments are 1-sample. -/
def rt1 : VulkanRenderTarget := ⟨fun _ => att1, att1, ⟨16, 16⟩⟩

/-- A rect-pair fixture. -/
def rect0 : VkOffset3D × VkOffset3D := (⟨0, 0, 0⟩, ⟨16, 16, 1⟩)

/-! Helper lemmas shared by several claim proofs. -/

/-- Any predicate that is false on pipeline barriers counts zero over the
source exit-barrier list. -/
theorem srcExitBarriers_countP_zero (ctx : VulkanContextModel) (aspect : Nat)
    (src : VulkanAttachment) (p : BlitCmd → Bool)
    (hp : ∀ t, p (.pipelineBarrier t) = false) :
    (srcExitBarriers ctx aspect src).countP p = 0 := by
  unfold srcExitBarriers
  rcases h : src.texture with _ | t
  · cases hq : ctx.headlessQueue <;> simp [hq, hp]
  · simp [hp]

/-- A successful `blitFast` call records the two entry barriers, then exactly
one copy command (a resolve exactly when the resolve condition holds, a blit
with the requested filter otherwise), then the exit barriers. -/
theorem blitFast_ok_shape (ctx : VulkanContextModel) (aspect : Nat)
    (filter : VkFilter) (srcTarget : VulkanRenderTarget)
    (src dst : VulkanAttachment) (srcRect dstRect : VkOffset3D × VkOffset3D)
    (cmds : List BlitCmd)
    (hok : blitFast ctx aspect filter srcTarget src dst srcRect dstRect = .ok cmds) :
    ∃ copy, isCopyCmd copy = true ∧
      isResolveCmd copy = resolveCondition src dst ∧
      (resolveCondition src dst = false →
        copy = .blitImage src.image .transferSrcOptimal dst.image .transferDstOptimal
          (blitRegion aspect src dst srcRect dstRect) filter) ∧
      cmds = srcEntryBarrier aspect src :: dstEntryBarrier aspect dst :: copy ::
        (srcExitBarriers ctx aspect src ++ [dstExitBarrier ctx aspect dst]) := by
  unfold blitFast at hok
  by_cases hc : resolveCondition src dst = true
  · by_cases ha : aspect = VK_IMAGE_ASPECT_DEPTH_BIT
    · simp [hc, ha] at hok
    · simp only [hc, if_true, ha, if_false, Except.ok.injEq] at hok
      subst hok
      refine ⟨.resolveImage src.image .transferSrcOptimal dst.image .transferDstOptimal
        (resolveRegion aspect srcTarget.getExtent src dst srcRect dstRect),
        by simp [isCopyCmd, isResolveCmd], by simp [isResolveCmd, hc],
        by simp [hc], by simp⟩
  · rw [Bool.not_eq_true] at hc
    simp only [hc, Bool.false_eq_true, if_false, Except.ok.injEq] at hok
    subst hok
    exact ⟨_, by simp [isCopyCmd, isBlitCmd], by simp [isResolveCmd, hc],
      fun _ => rfl, by simp⟩

/-- A fatally aborted `blitFast` call exists only on the depth-resolve path
and has recorded exactly the two entry barriers. -/
theorem blitFast_error_shape (ctx : VulkanContextModel) (aspect : Nat)
    (filter : VkFilter) (srcTarget : VulkanRenderTarget)
    (src dst : VulkanAttachment) (srcRect dstRect : VkOffset3D × VkOffset3D)
    (aborted : List BlitCmd)
    (herr : blitFast ctx aspect filter srcTarget src dst srcRect dstRect = .error aborted) :
    aborted = [srcEntryBarrier aspect src, dstEntryBarrier aspect dst] ∧
    resolveCondition src dst = true ∧ aspect = VK_IMAGE_ASPECT_DEPTH_BIT := by
  unfold blitFast at herr
  by_cases hc : resolveCondition src dst = true
  · by_cases ha : aspect = VK_IMAGE_ASPECT_DEPTH_BIT
    · subst ha
      simp only [hc, if_true, if_pos rfl, Except.error.injEq] at herr
      exact ⟨herr.symm, hc, rfl⟩
    · simp [hc, ha] at herr
  · rw [Bool.not_eq_true] at hc
    simp [hc] at herr

/-- A copy command is not a pipeline barrier. -/
theorem isBarrierCmd_false_of_copy (c : BlitCmd) (h : isCopyCmd c = true) :
    isBarrierCmd c = false := by
  cases c <;> simp_all [isCopyCmd, isResolveCmd, isBlitCmd, isBarrierCmd]

/-- C4: the layout-transition policy is a pure total function of the target
layout: shader-read-only and general get (transfer-write, shader-read,
transfer, fragment-shader); every other target layout gets
(transfer-read, none, transfer, top-of-pipe). -/
theorem transitionHelper_policy (t : VulkanLayoutTransition) :
    ((t.newLayout = .shaderReadOnlyOptimal ∨ t.newLayout = .general) →
      transitionHelper t =
        { t with
          srcAccessMask := VK_ACCESS_TRANSFER_WRITE_BIT
          dstAccessMask := VK_ACCESS_SHADER_READ_BIT
          srcStage := VK_PIPELINE_STAGE_TRANSFER_BIT
          dstStage := VK_PIPELINE_STAGE_FRAGMENT_SHADER_BIT }) ∧
    ((t.newLayout ≠ .shaderReadOnlyOptimal ∧ t.newLayout ≠ .general) →
      transitionHelper t =
        { t with
          srcAccessMask := VK_ACCESS_TRANSFER_READ_BIT
          dstAccessMask := 0
          srcStage := VK_PIPELINE_STAGE_TRANSFER_BIT
          dstStage := VK_PIPELINE_STAGE_TOP_OF_PIPE_BIT }) := by
  obtain ⟨img, old, new, sub, a, b, c, d⟩ := t
  cases new <;> simp [transitionHelper]

/-- Witness for `transitionHelper_policy`, at `newLayout = general` and at
`newLayout = colorAttachmentOptimal` (default branch). -/
theorem transitionHelper_policy_witness :
    transitionHelper ⟨7, .undefined, .general, ⟨1, 0, 1, 0, 1⟩, 0, 0, 0, 0⟩ =
      ⟨7, .undefined, .general, ⟨1, 0, 1, 0, 1⟩,
        VK_PIPELINE_STAGE_TRANSFER_BIT, VK_ACCESS_TRANSFER_WRITE_BIT,
        VK_PIPELINE_STAGE_FRAGMENT_SHADER_BIT, VK_ACCESS_SHADER_READ_BIT⟩ ∧
    transitionHelper ⟨7, .undefined, .colorAttachmentOptimal, ⟨1, 0, 1, 0, 1⟩, 0, 0, 0, 0⟩ =
      ⟨7, .undefined, .colorAttachmentOptimal, ⟨1, 0, 1, 0, 1⟩,
        VK_PIPELINE_STAGE_TRANSFER_BIT, VK_ACCESS_TRANSFER_READ_BIT,
        VK_PIPELINE_STAGE_TOP_OF_PIPE_BIT, 0⟩ :=
  ⟨(transitionHelper_policy ⟨7, .undefined, .general, ⟨1, 0, 1, 0, 1⟩, 0, 0, 0, 0⟩).1
      (Or.inr rfl),
   (transitionHelper_policy
      ⟨7, .undefined, .colorAttachmentOptimal, ⟨1, 0, 1, 0, 1⟩, 0, 0, 0, 0⟩).2
      (by exact ⟨by decide, by decide⟩)⟩

/-- C1: for every completed copy call whose attachments both carry backing
textures, a resolve command is issued exactly when the source sample count
exceeds 1 and the destination sample count equals 1; in every other
sample-count combination (including equal sample counts both greater than 1)
exactly one blit using the request's filter mode is issued and no resolve. -/
theorem blitFast_resolve_iff_msaa_to_single
    (ctx : VulkanContextModel) (aspect : Nat) (filter : VkFilter)
    (srcTarget : VulkanRenderTarget) (src dst : VulkanAttachment)
    (srcRect dstRect : VkOffset3D × VkOffset3D)
    (st dt : VulkanTexture) (cmds : List BlitCmd)
    (hs : src.texture = some st) (hd : dst.texture = some dt)
    (hok : blitFast ctx aspect filter srcTarget src dst srcRect dstRect = .ok cmds) :
    (cmds.countP isResolveCmd = if st.samples > 1 ∧ dt.samples = 1 then 1 else 0) ∧
    (cmds.countP (isBlitCmdWithFilter filter) =
      if st.samples > 1 ∧ dt.samples = 1 then 0 else 1) := by
  obtain ⟨copy, hcopy, hres, hblit, rfl⟩ :=
    blitFast_ok_shape ctx aspect filter srcTarget src dst srcRect dstRect cmds hok
  have hcond : resolveCondition src dst = decide (st.samples > 1 ∧ dt.samples = 1) := by
    unfold resolveCondition
    rw [hs, hd]
    by_cases h1 : st.samples > 1 <;> by_cases h2 : dt.samples = 1 <;> simp [h1, h2]
  rw [hcond] at hres hblit
  by_cases hc : st.samples > 1 ∧ dt.samples = 1
  · have hres' : isResolveCmd copy = true := by rw [hres]; simp [hc]
    cases copy with
    | resolveImage a b c d e =>
        constructor <;>
          simp [hc, List.countP_cons, List.countP_append, srcEntryBarrier,
            dstEntryBarrier, isResolveCmd, isBlitCmdWithFilter, dstExitBarrier,
            srcExitBarriers, hs]
    | pipelineBarrier t => simp [isResolveCmd] at hres'
    | blitImage a b c d e f => simp [isResolveCmd] at hres'
  · have hbl : copy = .blitImage src.image .transferSrcOptimal dst.image
        .transferDstOptimal (blitRegion aspect src dst srcRect dstRect) filter :=
      hblit (by simp [hc])
    subst hbl
    constructor <;>
      simp [hc, List.countP_cons, List.countP_append, srcEntryBarrier,
        dstEntryBarrier, isResolveCmd, isBlitCmdWithFilter, dstExitBarrier,
        srcExitBarriers, hs]

/-- Commands recorded by the concrete C1 witness call (color aspect, 4-sample
texture-backed source, 1-sample texture-backed destination). -/
def cmdsC1 : List BlitCmd :=
  recorded (blitFast ctx0 VK_IMAGE_ASPECT_COLOR_BIT .linear rtMS attMS att1 rect0 rect0)

/-- Witness for `blitFast_resolve_iff_msaa_to_single`. -/
theorem blitFast_resolve_iff_msaa_to_single_witness :
    attMS.texture = some texMS ∧ att1.texture = some tex1 ∧
    (cmdsC1.countP isResolveCmd = if texMS.samples > 1 ∧ tex1.samples = 1 then 1 else 0) ∧
    (cmdsC1.countP (isBlitCmdWithFilter .linear) =
      if texMS.samples > 1 ∧ tex1.samples = 1 then 0 else 1) :=
  ⟨rfl, rfl,
    blitFast_resolve_iff_msaa_to_single ctx0 VK_IMAGE_ASPECT_COLOR_BIT .linear rtMS
      attMS att1 rect0 rect0 texMS tex1 cmdsC1 rfl rfl rfl⟩

/-- C2: a depth-aspect copy whose texture-backed source is multisampled and
whose texture-backed destination is single-sampled hits the fatal invariant
violation: the call aborts and no copy (resolve or blit) command is among the
recorded commands. -/
theorem blitDepth_msaa_resolve_fatal
    (ctx : VulkanContextModel) (args : BlitArgs) (st dt : VulkanTexture)
    (hs : args.srcTarget.getDepth.texture = some st)
    (hd : args.dstTarget.getDepth.texture = some dt)
    (hms : st.samples > 1) (h1 : dt.samples = 1) :
    ∃ aborted, blitDepth ctx args = .error aborted ∧
      aborted.countP isCopyCmd = 0 := by
  have hcond : resolveCondition args.srcTarget.getDepth args.dstTarget.getDepth = true := by
    simp [resolveCondition, hs, hd, hms, h1]
  refine ⟨[srcEntryBarrier VK_IMAGE_ASPECT_DEPTH_BIT args.srcTarget.getDepth,
           dstEntryBarrier VK_IMAGE_ASPECT_DEPTH_BIT args.dstTarget.getDepth], ?_, ?_⟩
  · unfold blitDepth blitFast
    simp [hcond]
  · simp [srcEntryBarrier, dstEntryBarrier, isCopyCmd, isResolveCmd, isBlitCmd,
      List.countP_cons]

/-- The concrete C2 witness arguments: 4-sample depth source, 1-sample depth
destination. -/
def argsC2 : BlitArgs := ⟨.nearest, rect0, rect0, rtMS, rt1, 0⟩

/-- Witness for `blitDepth_msaa_resolve_fatal`. -/
theorem blitDepth_msaa_resolve_fatal_witness :
    rtMS.getDepth.texture = some texMS ∧ rt1.getDepth.texture = some tex1 ∧
    texMS.samples > 1 ∧ tex1.samples = 1 ∧
    (∃ aborted, blitDepth ctx0 argsC2 = .error aborted ∧
      aborted.countP isCopyCmd = 0) :=
  ⟨rfl, rfl, by decide, rfl,
    blitDepth_msaa_resolve_fatal ctx0 argsC2 texMS tex1 rfl rfl (by decide) rfl⟩

/-- C9: a resolve command is issued only when both attachments carry backing
texture references; when either side lacks one, the call completes with
exactly one blit (using the request's filter) and no resolve, regardless of
sample counts. -/
theorem blitFast_resolve_requires_textures
    (ctx : VulkanContextModel) (aspect : Nat) (filter : VkFilter)
    (srcTarget : VulkanRenderTarget) (src dst : VulkanAttachment)
    (srcRect dstRect : VkOffset3D × VkOffset3D) :
    ((recorded (blitFast ctx aspect filter srcTarget src dst srcRect dstRect)).countP
        isResolveCmd ≠ 0 →
      src.texture.isSome = true ∧ dst.texture.isSome = true) ∧
    (src.texture = none ∨ dst.texture = none →
      ∃ cmds, blitFast ctx aspect filter srcTarget src dst srcRect dstRect = .ok cmds ∧
        cmds.countP isResolveCmd = 0 ∧
        cmds.countP (isBlitCmdWithFilter filter) = 1) := by
  constructor
  · intro hres
    by_cases hc : resolveCondition src dst = true
    · unfold resolveCondition at hc
      rcases hs : src.texture with _ | s <;> rcases hd : dst.texture with _ | d <;>
        simp [hs, hd] at hc ⊢
    · rw [Bool.not_eq_true] at hc
      exfalso
      apply hres
      unfold blitFast recorded
      simp [hc, List.countP_cons, List.countP_append, srcEntryBarrier, dstEntryBarrier,
        isResolveCmd, dstExitBarrier,
        srcExitBarriers_countP_zero ctx aspect src isResolveCmd (fun _ => rfl)]
  · intro h
    have hc : resolveCondition src dst = false := by
      unfold resolveCondition
      rcases h with h | h <;> rcases hs : src.texture with _ | s <;>
        rcases hd : dst.texture with _ | d <;> simp_all
    refine ⟨srcEntryBarrier aspect src :: dstEntryBarrier aspect dst ::
      BlitCmd.blitImage src.image .transferSrcOptimal dst.image .transferDstOptimal
        (blitRegion aspect src dst srcRect dstRect) filter ::
      (srcExitBarriers ctx aspect src ++ [dstExitBarrier ctx aspect dst]), ?_, ?_, ?_⟩
    · unfold blitFast
      simp [hc]
    · simp [List.countP_cons, List.countP_append, srcEntryBarrier, dstEntryBarrier,
        isResolveCmd, dstExitBarrier,
        srcExitBarriers_countP_zero ctx aspect src isResolveCmd (fun _ => rfl)]
    · simp [List.countP_cons, List.countP_append, srcEntryBarrier, dstEntryBarrier,
        isBlitCmdWithFilter, dstExitBarrier,
        srcExitBarriers_countP_zero ctx aspect src (isBlitCmdWithFilter filter)
          (fun _ => rfl)]

/-- Witness for `blitFast_resolve_requires_textures`: the first conjunct at a
call that does issue a resolve, the second at a call whose source lacks a
backing texture. -/
theorem blitFast_resolve_requires_textures_witness :
    (attMS.texture.isSome = true ∧ att1.texture.isSome = true) ∧
    (∃ cmds,
      blitFast ctx0 VK_IMAGE_ASPECT_COLOR_BIT .nearest rt1 attNoTex att1 rect0 rect0 =
        .ok cmds ∧
      cmds.countP isResolveCmd = 0 ∧
      cmds.countP (isBlitCmdWithFilter .nearest) = 1) :=
  ⟨(blitFast_resolve_requires_textures ctx0 VK_IMAGE_ASPECT_COLOR_BIT .linear rtMS
      attMS att1 rect0 rect0).1 (by decide),
   (blitFast_resolve_requires_textures ctx0 VK_IMAGE_ASPECT_COLOR_BIT .nearest rt1
      attNoTex att1 rect0 rect0).2 (Or.inl rfl)⟩

/-- C5: every copy call first records a barrier taking the source image's
single-level/single-layer subresource range from undefined to
transfer-source-optimal with srcStage = bottom-of-pipe, srcAccessMask = none,
dstStage = transfer, dstAccessMask = transfer-read, and then a barrier taking
the destination image from undefined to transfer-destination-optimal with
dstStage = transfer, dstAccessMask = transfer-write. -/
theorem blitFast_entry_barrier_contents
    (ctx : VulkanContextModel) (aspect : Nat) (filter : VkFilter)
    (srcTarget : VulkanRenderTarget) (src dst : VulkanAttachment)
    (srcRect dstRect : VkOffset3D × VkOffset3D) :
    (recorded (blitFast ctx aspect filter srcTarget src dst srcRect dstRect)).take 2 =
      [ .pipelineBarrier ⟨src.image, .undefined, .transferSrcOptimal,
          ⟨aspect, src.level, 1, src.layer, 1⟩,
          VK_PIPELINE_STAGE_BOTTOM_OF_PIPE_BIT, 0,
          VK_PIPELINE_STAGE_TRANSFER_BIT, VK_ACCESS_TRANSFER_READ_BIT⟩,
        .pipelineBarrier ⟨dst.image, .undefined, .transferDstOptimal,
          ⟨aspect, dst.level, 1, dst.layer, 1⟩,
          VK_PIPELINE_STAGE_BOTTOM_OF_PIPE_BIT, 0,
          VK_PIPELINE_STAGE_TRANSFER_BIT, VK_ACCESS_TRANSFER_WRITE_BIT⟩ ] := by
  unfold blitFast recorded
  by_cases hc : resolveCondition src dst = true
  · by_cases ha : aspect = VK_IMAGE_ASPECT_DEPTH_BIT <;>
      simp [hc, ha, srcEntryBarrier, dstEntryBarrier, attachmentRange]
  · rw [Bool.not_eq_true] at hc
    simp [hc, srcEntryBarrier, dstEntryBarrier, attachmentRange]

/-- C6: every successful call records exactly 2 entry barriers (the first two
commands); the exit barriers (the barriers after the first two commands)
number 2 when the source has a backing texture or the surface is non-headless,
and 1 when the source has no backing texture and the surface is headless. -/
theorem blitFast_barrier_counts
    (ctx : VulkanContextModel) (aspect : Nat) (filter : VkFilter)
    (srcTarget : VulkanRenderTarget) (src dst : VulkanAttachment)
    (srcRect dstRect : VkOffset3D × VkOffset3D) (cmds : List BlitCmd)
    (hok : blitFast ctx aspect filter srcTarget src dst srcRect dstRect = .ok cmds) :
    (cmds.take 2).countP isBarrierCmd = 2 ∧
    (cmds.drop 2).countP isBarrierCmd =
      (if src.texture.isSome || !ctx.headlessQueue then 2 else 1) := by
  obtain ⟨copy, hcopy, -, -, rfl⟩ :=
    blitFast_ok_shape ctx aspect filter srcTarget src dst srcRect dstRect cmds hok
  refine ⟨by simp [srcEntryBarrier, dstEntryBarrier, isBarrierCmd, List.countP_cons], ?_⟩
  cases copy with
  | pipelineBarrier t => simp [isCopyCmd, isResolveCmd, isBlitCmd] at hcopy
  | resolveImage a b c d e =>
      rcases h : src.texture with _ | t
      · cases hq : ctx.headlessQueue <;>
          simp [srcExitBarriers, h, hq, dstExitBarrier, isBarrierCmd,
            List.countP_cons, List.countP_append]
      · simp [srcExitBarriers, h, dstExitBarrier, isBarrierCmd,
          List.countP_cons, List.countP_append]
  | blitImage a b c d e f =>
      rcases h : src.texture with _ | t
      · cases hq : ctx.headlessQueue <;>
          simp [srcExitBarriers, h, hq, dstExitBarrier, isBarrierCmd,
            List.countP_cons, List.countP_append]
      · simp [srcExitBarriers, h, dstExitBarrier, isBarrierCmd,
          List.countP_cons, List.countP_append]

/-- Commands of the C6 witness call with a texture-less source on a
non-headless surface. -/
def cmdsC6a : List BlitCmd :=
  recorded (blitFast ctx0 VK_IMAGE_ASPECT_COLOR_BIT .linear rt1 attNoTex att1 rect0 rect0)

/-- Commands of the C6 witness call with a texture-less source on a headless
surface. -/
def cmdsC6b : List BlitCmd :=
  recorded (blitFast ctxHeadless VK_IMAGE_ASPECT_COLOR_BIT .linear rt1 attNoTex att1
    rect0 rect0)

/-- Witness for `blitFast_barrier_counts`, at a non-headless call (2 exit
barriers) and at a headless, texture-less-source call (1 exit barrier). -/
theorem blitFast_barrier_counts_witness :
    ((cmdsC6a.take 2).countP isBarrierCmd = 2 ∧
      (cmdsC6a.drop 2).countP isBarrierCmd =
        (if attNoTex.texture.isSome || !ctx0.headlessQueue then 2 else 1)) ∧
    ((cmdsC6b.take 2).countP isBarrierCmd = 2 ∧
      (cmdsC6b.drop 2).countP isBarrierCmd =
        (if attNoTex.texture.isSome || !ctxHeadless.headlessQueue then 2 else 1)) :=
  ⟨blitFast_barrier_counts ctx0 VK_IMAGE_ASPECT_COLOR_BIT .linear rt1 attNoTex att1
      rect0 rect0 cmdsC6a rfl,
   blitFast_barrier_counts ctxHeadless VK_IMAGE_ASPECT_COLOR_BIT .linear rt1 attNoTex
      att1 rect0 rect0 cmdsC6b rfl⟩

/-- C3: for every completed copy call, the source exit barrier targets the
layout implied by the source texture's usage when a backing texture exists,
else color-attachment-optimal when the surface is not headless, else no source
exit barrier is emitted; and the destination exit barrier is always emitted
last, targeting the destination texture's usage layout when present, else the
active swapchain attachment's current layout. -/
theorem blitFast_exit_barrier_targets
    (ctx : VulkanContextModel) (aspect : Nat) (filter : VkFilter)
    (srcTarget : VulkanRenderTarget) (src dst : VulkanAttachment)
    (srcRect dstRect : VkOffset3D × VkOffset3D) (cmds : List BlitCmd)
    (hok : blitFast ctx aspect filter srcTarget src dst srcRect dstRect = .ok cmds) :
    (∀ t, src.texture = some t →
      cmds.drop (cmds.length - 2) =
        [ .pipelineBarrier (transitionHelper ⟨src.image, .undefined,
            ctx.getTextureLayout t.usage, attachmentRange aspect src, 0, 0, 0, 0⟩),
          dstExitBarrier ctx aspect dst ]) ∧
    (src.texture = none → ctx.headlessQueue = false →
      cmds.drop (cmds.length - 2) =
        [ .pipelineBarrier (transitionHelper ⟨src.image, .undefined,
            .colorAttachmentOptimal, attachmentRange aspect src, 0, 0, 0, 0⟩),
          dstExitBarrier ctx aspect dst ]) ∧
    (src.texture = none → ctx.headlessQueue = true →
      cmds.length = 4 ∧
      cmds.drop (cmds.length - 1) = [dstExitBarrier ctx aspect dst]) ∧
    (∀ t, dst.texture = some t →
      cmds.getLast? = some (.pipelineBarrier (transitionHelper ⟨dst.image, .undefined,
        ctx.getTextureLayout t.usage, attachmentRange aspect dst, 0, 0, 0, 0⟩))) ∧
    (dst.texture = none →
      cmds.getLast? = some (.pipelineBarrier (transitionHelper ⟨dst.image, .undefined,
        ctx.swapChainAttachmentLayout, attachmentRange aspect dst, 0, 0, 0, 0⟩))) := by
  obtain ⟨copy, hcopy, -, -, rfl⟩ :=
    blitFast_ok_shape ctx aspect filter srcTarget src dst srcRect dstRect cmds hok
  refine ⟨?_, ?_, ?_, ?_, ?_⟩
  · intro t ht
    simp [srcExitBarriers, ht]
  · intro ht hq
    simp [srcExitBarriers, ht, hq]
  · intro ht hq
    simp [srcExitBarriers, ht, hq]
  · intro t ht
    rcases h : src.texture with _ | s
    · cases hq : ctx.headlessQueue <;>
        simp [srcExitBarriers, h, hq, dstExitBarrier, dstDesiredLayout, ht]
    · simp [srcExitBarriers, h, dstExitBarrier, dstDesiredLayout, ht]
  · intro ht
    rcases h : src.texture with _ | s
    · cases hq : ctx.headlessQueue <;>
        simp [srcExitBarriers, h, hq, dstExitBarrier, dstDesiredLayout, ht]
    · simp [srcExitBarriers, h, dstExitBarrier, dstDesiredLayout, ht]

/-- Commands of the C3 witness call with texture-backed source and
destination. -/
def cmdsC3a : List BlitCmd :=
  recorded (blitFast ctx0 VK_IMAGE_ASPECT_COLOR_BIT .linear rt1 att1 att1 rect0 rect0)

/-- Commands of the C3 witness call with a texture-less source and
destination, non-headless surface. -/
def cmdsC3b : List BlitCmd :=
  recorded (blitFast ctx0 VK_IMAGE_ASPECT_COLOR_BIT .linear rt1 attNoTex attNoTex
    rect0 rect0)

/-- Commands of the C3 witness call with a texture-less source, headless
surface. -/
def cmdsC3c : List BlitCmd :=
  recorded (blitFast ctxHeadless VK_IMAGE_ASPECT_COLOR_BIT .linear rt1 attNoTex att1
    rect0 rect0)

/-- Witness for `blitFast_exit_barrier_targets`, exercising all five cases at
three concrete calls. -/
theorem blitFast_exit_barrier_targets_witness :
    (cmdsC3a.drop (cmdsC3a.length - 2) =
      [ .pipelineBarrier (transitionHelper ⟨att1.image, .undefined,
          ctx0.getTextureLayout tex1.usage,
          attachmentRange VK_IMAGE_ASPECT_COLOR_BIT att1, 0, 0, 0, 0⟩),
        dstExitBarrier ctx0 VK_IMAGE_ASPECT_COLOR_BIT att1 ]) ∧
    (cmdsC3a.getLast? = some (.pipelineBarrier (transitionHelper ⟨att1.image,
      .undefined, ctx0.getTextureLayout tex1.usage,
      attachmentRange VK_IMAGE_ASPECT_COLOR_BIT att1, 0, 0, 0, 0⟩))) ∧
    (cmdsC3b.drop (cmdsC3b.length - 2) =
      [ .pipelineBarrier (transitionHelper ⟨attNoTex.image, .undefined,
          .colorAttachmentOptimal,
          attachmentRange VK_IMAGE_ASPECT_COLOR_BIT attNoTex, 0, 0, 0, 0⟩),
        dstExitBarrier ctx0 VK_IMAGE_ASPECT_COLOR_BIT attNoTex ]) ∧
    (cmdsC3b.getLast? = some (.pipelineBarrier (transitionHelper ⟨attNoTex.image,
      .undefined, ctx0.swapChainAttachmentLayout,
      attachmentRange VK_IMAGE_ASPECT_COLOR_BIT attNoTex, 0, 0, 0, 0⟩))) ∧
    (cmdsC3c.length = 4 ∧
      cmdsC3c.drop (cmdsC3c.length - 1) =
        [dstExitBarrier ctxHeadless VK_IMAGE_ASPECT_COLOR_BIT att1]) :=
  ⟨(blitFast_exit_barrier_targets ctx0 VK_IMAGE_ASPECT_COLOR_BIT .linear rt1 att1 att1
      rect0 rect0 cmdsC3a rfl).1 tex1 rfl,
   (blitFast_exit_barrier_targets ctx0 VK_IMAGE_ASPECT_COLOR_BIT .linear rt1 att1 att1
      rect0 rect0 cmdsC3a rfl).2.2.2.1 tex1 rfl,
   (blitFast_exit_barrier_targets ctx0 VK_IMAGE_ASPECT_COLOR_BIT .linear rt1 attNoTex
      attNoTex rect0 rect0 cmdsC3b rfl).2.1 rfl rfl,
   (blitFast_exit_barrier_targets ctx0 VK_IMAGE_ASPECT_COLOR_BIT .linear rt1 attNoTex
      attNoTex rect0 rect0 cmdsC3b rfl).2.2.2.2 rfl,
   (blitFast_exit_barrier_targets ctxHeadless VK_IMAGE_ASPECT_COLOR_BIT .linear rt1
      attNoTex att1 rect0 rect0 cmdsC3c rfl).2.2.1 rfl rfl⟩

/-- C7 counterexample: at the depth-aspect call with a 4-sample texture-backed
source and a 1-sample texture-backed destination, the two entry barriers are
recorded into the command context while no copy command is, refuting "the two
entry barriers are never recorded without the copy command" / "a call either
fully records its commands or aborts before emitting any barrier". -/
theorem blitFast_partial_barriers_cex :
    (recorded (blitDepth ctx0 argsC2)).countP isBarrierCmd = 2 ∧
    (recorded (blitDepth ctx0 argsC2)).countP isCopyCmd = 0 ∧
    (∃ aborted, blitDepth ctx0 argsC2 = .error aborted) :=
  ⟨by decide, by decide, ⟨recorded (blitDepth ctx0 argsC2), rfl⟩⟩

/-- C7 (amended): a call that completes records exactly one copy command, with
its first two commands being the two entry barriers; the only path recording
the entry barriers without a copy command is the fatal depth-resolve invariant
violation, which aborts having recorded exactly the two entry barriers. -/
theorem blitFast_barriers_copy_pairing
    (ctx : VulkanContextModel) (aspect : Nat) (filter : VkFilter)
    (srcTarget : VulkanRenderTarget) (src dst : VulkanAttachment)
    (srcRect dstRect : VkOffset3D × VkOffset3D) :
    (∀ cmds, blitFast ctx aspect filter srcTarget src dst srcRect dstRect = .ok cmds →
      cmds.countP isCopyCmd = 1 ∧ (cmds.take 2).countP isBarrierCmd = 2) ∧
    (∀ aborted,
      blitFast ctx aspect filter srcTarget src dst srcRect dstRect = .error aborted →
      aborted = [srcEntryBarrier aspect src, dstEntryBarrier aspect dst] ∧
      aborted.countP isCopyCmd = 0 ∧
      resolveCondition src dst = true ∧ aspect = VK_IMAGE_ASPECT_DEPTH_BIT) := by
  constructor
  · intro cmds hok
    obtain ⟨copy, hcopy, -, -, rfl⟩ :=
      blitFast_ok_shape ctx aspect filter srcTarget src dst srcRect dstRect cmds hok
    refine ⟨?_,
      by simp [srcEntryBarrier, dstEntryBarrier, isBarrierCmd, List.countP_cons]⟩
    cases copy with
    | pipelineBarrier t => simp [isCopyCmd, isResolveCmd, isBlitCmd] at hcopy
    | resolveImage a b c d e =>
        simp [List.countP_cons, List.countP_append, srcEntryBarrier, dstEntryBarrier,
          isCopyCmd, isResolveCmd, isBlitCmd, dstExitBarrier,
          srcExitBarriers_countP_zero ctx aspect src isCopyCmd (fun _ => rfl)]
    | blitImage a b c d e f =>
        simp [List.countP_cons, List.countP_append, srcEntryBarrier, dstEntryBarrier,
          isCopyCmd, isResolveCmd, isBlitCmd, dstExitBarrier,
          srcExitBarriers_countP_zero ctx aspect src isCopyCmd (fun _ => rfl)]
  · intro aborted herr
    obtain ⟨rfl, hc, ha⟩ :=
      blitFast_error_shape ctx aspect filter srcTarget src dst srcRect dstRect
        aborted herr
    exact ⟨rfl, by simp [srcEntryBarrier, dstEntryBarrier, isCopyCmd, isResolveCmd,
      isBlitCmd, List.countP_cons], hc, ha⟩

/-- Witness for `blitFast_barriers_copy_pairing`: the completed-call conjunct
at a concrete blit call, the fatal conjunct at the concrete depth-resolve
call. -/
theorem blitFast_barriers_copy_pairing_witness :
    (cmdsC6a.countP isCopyCmd = 1 ∧ (cmdsC6a.take 2).countP isBarrierCmd = 2) ∧
    ((recorded (blitDepth ctx0 argsC2)) =
        [srcEntryBarrier VK_IMAGE_ASPECT_DEPTH_BIT rtMS.getDepth,
         dstEntryBarrier VK_IMAGE_ASPECT_DEPTH_BIT rt1.getDepth] ∧
      (recorded (blitDepth ctx0 argsC2)).countP isCopyCmd = 0 ∧
      resolveCondition rtMS.getDepth rt1.getDepth = true ∧
      VK_IMAGE_ASPECT_DEPTH_BIT = VK_IMAGE_ASPECT_DEPTH_BIT) :=
  ⟨(blitFast_barriers_copy_pairing ctx0 VK_IMAGE_ASPECT_COLOR_BIT .linear rt1 attNoTex
      att1 rect0 rect0).1 cmdsC6a rfl,
   (blitFast_barriers_copy_pairing ctx0 VK_IMAGE_ASPECT_DEPTH_BIT .nearest rtMS
      rtMS.getDepth rt1.getDepth rect0 rect0).2 (recorded (blitDepth ctx0 argsC2)) rfl⟩

/-- C8: `lazyInit` is idempotent.  From a state whose first handle is null,
with a device present and a successful (hence non-null) vertex-module
creation, the first call performs exactly one pair of shader-module-creation
events, and the second call observes a non-null first handle, creates nothing,
and leaves the state unchanged. -/
theorem lazyInit_idempotent (drv : VulkanDriverModel) (s : VulkanBlitterState)
    (hnull : s.mVertex = 0) (hdev : drv.device = true) (hvs : drv.vsHandle ≠ 0) :
    ∃ s1 ev1, lazyInit drv s = .ok (s1, ev1) ∧
      ev1.countP isCreateEvent = 2 ∧
      s1.mVertex ≠ 0 ∧
      lazyInit drv s1 = .ok (s1, []) := by
  refine ⟨⟨drv.vsHandle, drv.fsHandle⟩,
    [.create .vertex drv.vsHandle, .create .fragment drv.fsHandle], ?_, ?_, hvs, ?_⟩
  · simp [lazyInit, hnull, hdev]
  · simp [List.countP_cons, isCreateEvent]
  · simp [lazyInit, hvs]

/-- Witness for `lazyInit_idempotent`. -/
theorem lazyInit_idempotent_witness :
    (0 : Nat) = 0 ∧ (5 : Nat) ≠ 0 ∧
    ∃ s1 ev1, lazyInit ⟨true, 5, 6⟩ ⟨0, 0⟩ = .ok (s1, ev1) ∧
      ev1.countP isCreateEvent = 2 ∧
      s1.mVertex ≠ 0 ∧
      lazyInit ⟨true, 5, 6⟩ s1 = .ok (s1, []) :=
  ⟨rfl, by decide, lazyInit_idempotent ⟨true, 5, 6⟩ ⟨0, 0⟩ rfl rfl (by decide)⟩

/-- C10: `shutdown` never modifies the stored shader-handle fields: with a
device present, the state after `shutdown` equals the state before, the
destruction events carry the stored handle values, a subsequent `lazyInit`
(given the first handle was non-null) observes it and performs no re-creation,
and a second `shutdown` passes the same handle values to destruction again. -/
theorem shutdown_preserves_handles (drv : VulkanDriverModel)
    (s : VulkanBlitterState) (hdev : drv.device = true) (hvs : s.mVertex ≠ 0) :
    (shutdown drv s).1 = s ∧
    (shutdown drv s).2 = [.destroy s.mVertex, .destroy s.mFragment] ∧
    lazyInit drv (shutdown drv s).1 = .ok ((shutdown drv s).1, []) ∧
    shutdown drv (shutdown drv s).1 = shutdown drv s := by
  refine ⟨?_, ?_, ?_, ?_⟩ <;> simp [shutdown, lazyInit, hdev, hvs]

/-- Witness for `shutdown_preserves_handles`. -/
theorem shutdown_preserves_handles_witness :
    (shutdown ⟨true, 5, 6⟩ ⟨5, 6⟩).1 = ⟨5, 6⟩ ∧
    (shutdown ⟨true, 5, 6⟩ ⟨5, 6⟩).2 = [.destroy 5, .destroy 6] ∧
    lazyInit ⟨true, 5, 6⟩ (shutdown ⟨true, 5, 6⟩ ⟨5, 6⟩).1 =
      .ok ((shutdown ⟨true, 5, 6⟩ ⟨5, 6⟩).1, []) ∧
    shutdown ⟨true, 5, 6⟩ (shutdown ⟨true, 5, 6⟩ ⟨5, 6⟩).1 =
      shutdown ⟨true, 5, 6⟩ ⟨5, 6⟩ :=
  shutdown_preserves_handles ⟨true, 5, 6⟩ ⟨5, 6⟩ rfl (by decide)

end VulkanBlitterModel
